import Mathlib

/-!
Verification of the particle image viewer (vertex/fragment shader pair and the
viewer state machine) against its natural-language specification.

The GLSL shader arithmetic is embedded over the rationals.  The transcendental
built-ins (sin, cos, and the square root used by normalize) are passed in as
explicit function parameters: the theorems either hold for every choice of
these functions (the transient terms are multiplied by an attenuation factor
that vanishes), or are evaluated at arguments where the concrete value of the
real function is known and supplied by hypothesis.

The viewer class (open/close/next/prev/transitionTo/tweenProgress/cleanupScene/
destroy) is embedded as explicit state-passing functions over a `ViewerState`
record; the requestAnimationFrame-driven loops become structural recursion over
a list of sampled elapsed times (the code is wall-clock based, so each frame
only depends on the elapsed time at which it fires).
-/

/-- Component-wise rational 3-vector, modelling GLSL `vec3`. -/
structure Vec3 where
  x : ℚ
  y : ℚ
  z : ℚ
deriving DecidableEq

def vadd (a b : Vec3) : Vec3 := ⟨a.x + b.x, a.y + b.y, a.z + b.z⟩

def vsmul (c : ℚ) (v : Vec3) : Vec3 := ⟨c * v.x, c * v.y, c * v.z⟩

def vdot (a b : Vec3) : ℚ := a.x * b.x + a.y * b.y + a.z * b.z

/-- GLSL `clamp(x, lo, hi)`. -/
def clampQ (x lo hi : ℚ) : ℚ := min (max x lo) hi

/-- GLSL `smoothstep(e0, e1, x)`. -/
def smoothstepQ (e0 e1 x : ℚ) : ℚ :=
  let t := clampQ ((x - e0) / (e1 - e0)) 0 1
  t * t * (3 - 2 * t)

/-- GLSL `mix(a, b, t)`. -/
def mixQ (a b t : ℚ) : ℚ := a * (1 - t) + b * t

def vmix (a b : Vec3) (t : ℚ) : Vec3 := ⟨mixQ a.x b.x t, mixQ a.y b.y t, mixQ a.z b.z t⟩

/-- GLSL `normalize(v) = v / sqrt(dot(v, v))`; the square root is abstracted
as `sqrtF`. -/
def vnormalize (sqrtF : ℚ → ℚ) (v : Vec3) : Vec3 :=
  vsmul (1 / sqrtF (vdot v v)) v

/-- `bezierQuadratic` from particles.vert: quadratic Bezier `P0 -> P1 -> P2`. -/
def bezierQuadratic (p0 p1 p2 : Vec3) (t : ℚ) : Vec3 :=
  let oneMinusT := 1 - t
  vadd (vadd (vsmul (oneMinusT * oneMinusT) p0) (vsmul (2 * oneMinusT * t) p1))
    (vsmul (t * t) p2)

/-- `getParticlePosition` from particles.vert, as a function of the abstracted
trig/sqrt built-ins, the uniforms, the per-particle attributes, the local
progress `p` and the planar grid position `finalPos`. -/
def getParticlePosition (sinF cosF sqrtF : ℚ → ℚ) (uTime uMode uDispersion : ℚ)
    (aStartPosition aCurveOffset : Vec3) (p : ℚ) (finalPos : Vec3) : Vec3 :=
  let disintegratePhase := smoothstepQ 0 (2/5) p
  let disperseDir := vnormalize sqrtF
    (vadd (vadd aStartPosition (vsmul (1/2) aCurveOffset)) ⟨1/1000, 1/1000, 1/1000⟩)
  let ds0 := 1 - disintegratePhase
  let ds1 := ds0 * ds0
  let disperseStrength := ds1 * mixQ 1 (smoothstepQ 0 (3/10) p) uMode
  let disperseOffset := vsmul (disperseStrength * 200) disperseDir
  let zSeparation := disperseStrength * aCurveOffset.z * 300
  let travelPhase := smoothstepQ (3/10) (3/4) p
  let midPoint := vadd (vmix aStartPosition finalPos (1/2)) (vsmul (mixQ 250 50 uMode) aCurveOffset)
  let bezierPos := bezierQuadratic aStartPosition midPoint finalPos travelPhase
  let uniquePhase := aCurveOffset.x * (628318/100000) + aCurveOffset.y * (314159/100000)
  let floatTime := uTime * (3/2) + uniquePhase
  let floatStrength := sinF (p * (314159/100000)) * (7/10) * mixQ 1 (1/5) uMode
  let floatOffset := vsmul (floatStrength * 80)
    ⟨sinF floatTime * aCurveOffset.x,
     cosF (floatTime * (7/10)) * aCurveOffset.y,
     sinF (floatTime * (1/2)) * aCurveOffset.z * (1/2)⟩
  let settlePhase := smoothstepQ (7/10) 1 p
  let settleEase := settlePhase * settlePhase * (3 - 2 * settlePhase)
  let activeEffects := 1 - settleEase
  let pos1 := vadd bezierPos (vsmul activeEffects disperseOffset)
  let pos2 : Vec3 := ⟨pos1.x, pos1.y, pos1.z + zSeparation * activeEffects⟩
  let pos3 := vadd pos2 (vsmul activeEffects floatOffset)
  let morphDir : Vec3 :=
    ⟨sinF (aCurveOffset.x * 20 + uTime * 5),
     cosF (aCurveOffset.y * 20 + uTime * 3),
     sinF (aCurveOffset.z * 20)⟩
  let pos4 := vadd pos3 (vsmul (uDispersion * 400) morphDir)
  ⟨pos4.x, pos4.y, pos4.z + uDispersion * 80⟩

/-- The delay remapping from `main()` in particles.vert:
`clamp((uProgress - aDelay) / (1.0 - aDelay), 0.0, 1.0)`. -/
def localProgress (uProgress aDelay : ℚ) : ℚ :=
  clampQ ((uProgress - aDelay) / (1 - aDelay)) 0 1

/-- Per-particle delay generation from `ParticleViewer.open`:
`(1 - normalizedDistance) * 0.25 + random * 0.05`, where `normalizedDistance`
is the UV distance from the image center divided by `sqrt(0.5^2 + 0.5^2)`. -/
def delaySample (sqrtF : ℚ → ℚ) (u v j : ℚ) : ℚ :=
  let centerU := u - 1/2
  let centerV := v - 1/2
  let distanceFromCenter := sqrtF (centerU * centerU + centerV * centerV)
  let maxDistance := sqrtF (1/2 * (1/2) + 1/2 * (1/2))
  (1 - distanceFromCenter / maxDistance) * (1/4) + j * (1/20)

/-- The per-particle shape branch from particles.frag (`vRandom` thresholds
-0.2 / 0.2). -/
inductive ParticleShape where
  | square
  | circle
  | triangle
deriving DecidableEq

def particleShape (vRandom : ℚ) : ParticleShape :=
  if vRandom < -(1/5) then ParticleShape.circle
  else if (1/5) < vRandom then ParticleShape.triangle
  else ParticleShape.square

/-- `aCurveOffset.x` generation from `ParticleViewer.open`:
`(Math.random() - 0.5) * 4.0` for `random` uniform in `[0, 1)`. -/
def curveOffsetX (rand : ℚ) : ℚ := (rand - 1/2) * 4

/-- Geometry attribute buffers of the particle geometry, in the flat
Float32Array layout the code uses (3 entries per vertex for vec3 attributes,
2 per vertex for uv, 1 per vertex for scalars). -/
structure GeoAttrs where
  startPositions : List ℚ
  curveOffsets : List ℚ
  delays : List ℚ
  rotationSpeeds : List ℚ
  positions : List ℚ
  uvs : List ℚ
deriving DecidableEq

/-- A DOM bounding client rect. -/
structure RectQ where
  left : ℚ
  top : ℚ
  width : ℚ
  height : ℚ
deriving DecidableEq

/-- `ParticleViewer.calculateViewDimensions`. -/
def calculateViewDimensions (imageWidth imageHeight padding vpWidth vpHeight : ℚ) : ℚ × ℚ :=
  let imgAspect := imageWidth / imageHeight
  let vpAspect := vpWidth / vpHeight
  if vpAspect < imgAspect then
    let viewWidth := imageWidth * padding
    (viewWidth, viewWidth / vpAspect)
  else
    let viewHeight := imageHeight * padding
    (viewHeight * vpAspect, viewHeight)

/-- The x formula of `ParticleViewer.updateStartPositions`:
`(sourcePx / vpWidth) * viewWidth - viewWidth / 2` with
`sourcePx = rect.left + u * rect.width`. -/
def startPosX (rect : RectQ) (vpWidth viewWidth u : ℚ) : ℚ :=
  ((rect.left + u * rect.width) / vpWidth) * viewWidth - viewWidth / 2

/-- The y formula of `ParticleViewer.updateStartPositions`:
`-(sourcePy / vpHeight) * viewHeight + viewHeight / 2` with
`sourcePy = rect.top + (1 - v) * rect.height`. -/
def startPosY (rect : RectQ) (vpHeight viewHeight v : ℚ) : ℚ :=
  -((rect.top + (1 - v) * rect.height) / vpHeight) * viewHeight + viewHeight / 2

/-- One iteration of the `updateStartPositions` loop: writes the x and y slots
of vertex `i` in the flat start-position array (the z slot at `3*i+2` is not
written by the code). -/
def writeStartPosition (rect : RectQ) (vpW vpH viewW viewH : ℚ) (uvs : List ℚ)
    (i : ℕ) (arr : List ℚ) : List ℚ :=
  let u := uvs.getD (2 * i) 0
  let v := uvs.getD (2 * i + 1) 0
  (arr.set (3 * i) (startPosX rect vpW viewW u)).set (3 * i + 1) (startPosY rect vpH viewH v)

/-- The `for (let i = 0; i < count; i++)` loop of `updateStartPositions`. -/
def startPositionsLoop (rect : RectQ) (vpW vpH viewW viewH : ℚ) (uvs : List ℚ) :
    ℕ → List ℚ → List ℚ
  | 0, arr => arr
  | Nat.succ n, arr =>
    writeStartPosition rect vpW vpH viewW viewH uvs n
      (startPositionsLoop rect vpW vpH viewW viewH uvs n arr)

/-- `ParticleViewer.updateStartPositions`: recomputes the aStartPosition
attribute in place from the source image's current bounding rect and the
current view dimensions; `count` is the attribute count (array length / 3). -/
def updateStartPositions (g : GeoAttrs) (rect : RectQ)
    (imageWidth imageHeight padding vpW vpH : ℚ) : GeoAttrs :=
  let vd := calculateViewDimensions imageWidth imageHeight padding vpW vpH
  { g with startPositions := (startPositionsLoop rect vpW vpH vd.1 vd.2 g.uvs
      (g.startPositions.length / 3) g.startPositions) }

/-- The shader-material uniforms of the point cloud (textures as numeric
handles). -/
structure PointsMat where
  uProgress : ℚ
  uOpacity : ℚ
  uMode : ℚ
  uDispersion : ℚ
  uTextureMix : ℚ
  uTexture : ℕ
  uTextureNext : ℕ
deriving DecidableEq

/-- The `currentPoints` object: material uniforms, visibility, and the image
whose plane geometry currently provides the `position` attribute. -/
structure PointsObj where
  mat : PointsMat
  visible : Bool
  positionsFrom : ℕ
deriving DecidableEq

/-- The `currentMesh` object: visibility, material opacity and texture map. -/
structure MeshObj where
  visible : Bool
  opacity : ℚ
  map : ℕ
deriving DecidableEq

/-- Focusable control elements referenced by the viewer. -/
inductive FocusTarget where
  | closeButton
  | image (i : ℕ)
deriving DecidableEq

/-- The mutable fields of a `ParticleViewer` instance (plus the observable DOM
effects: container/caption `visible` classes, body overflow, backdrop image
count, focused element, console error count). -/
structure ViewerState where
  containerVisible : Bool
  captionVisible : Bool
  overflowHidden : Bool
  isAnimating : Bool
  currentIndex : ℕ
  imagesLen : ℕ
  points : Option PointsObj
  mesh : Option MeshObj
  renderer : Bool
  scene : Bool
  animationId : Option ℕ
  renderId : Option ℕ
  handlersCount : ℕ
  bgCount : ℕ
  focus : Option FocusTarget
  errorLog : ℕ
deriving DecidableEq

/-- Update the point-cloud material uniforms, if a point cloud exists. -/
def updMat (s : ViewerState) (f : PointsMat → PointsMat) : ViewerState :=
  match s.points with
  | none => s
  | some p => { s with points := some { p with mat := f p.mat } }

/-- Update the mesh, if it exists. -/
def updMesh (s : ViewerState) (f : MeshObj → MeshObj) : ViewerState :=
  match s.mesh with
  | none => s
  | some m => { s with mesh := some (f m) }

/-- The smoothstep-shaped ease `p*p*(3-2p)` used by the dispersion stage. -/
def smoothEase (p : ℚ) : ℚ := p * p * (3 - 2 * p)

/-- The quartic ease-out `1-(1-p)^4` used by tweenProgress and the reassembly
stage. -/
def quartEaseQ (p : ℚ) : ℚ := 1 - (1 - p) ^ 4

/-- GPU resource events emitted by the teardown paths, in order. -/
inductive GpuEvent where
  | cancelFrame
  | disposeMaterial
  | disposeMeshMaterial
  | disposeGeometry
  | disposeTexture (id : ℕ)
  | disposeRenderer
deriving DecidableEq

def isCancel (e : GpuEvent) : Bool :=
  match e with
  | GpuEvent.cancelFrame => true
  | _ => false

/-- `true` when, after the leading run of frame cancellations, no further
cancellation occurs; with the event alphabet above this says every
cancellation precedes every disposal. -/
def cancelsBeforeDisposes (l : List GpuEvent) : Bool :=
  (l.dropWhile isCancel).all (fun e => !(isCancel e))

/-- `ParticleViewer.cleanupScene`: cancels any pending tween frame (without
nulling the id), clears isAnimating, and — when a point cloud and scene exist —
removes and disposes the point material, mesh material, geometry, and the
texture(s); `uTextureNext` is disposed only when it differs from `uTexture`.
Returns the new state and the ordered GPU events. -/
def cleanupScene (s : ViewerState) : ViewerState × List GpuEvent :=
  let cancels := if s.animationId.isSome then [GpuEvent.cancelFrame] else []
  let s1 := { s with isAnimating := false }
  match s.points, s.scene with
  | some p, true =>
    let meshEvents := if s.mesh.isSome then [GpuEvent.disposeMeshMaterial] else []
    let texEvents := (if p.mat.uTextureNext ≠ p.mat.uTexture then
        [GpuEvent.disposeTexture p.mat.uTexture, GpuEvent.disposeTexture p.mat.uTextureNext]
      else [GpuEvent.disposeTexture p.mat.uTexture])
    ({ s1 with points := none, mesh := none },
      cancels ++ [GpuEvent.disposeMaterial] ++ meshEvents ++ [GpuEvent.disposeGeometry] ++ texEvents)
  | _, _ => (s1, cancels)

def cleanupSceneState (s : ViewerState) : ViewerState := (cleanupScene s).1

def cleanupSceneTrace (s : ViewerState) : List GpuEvent := (cleanupScene s).2

/-- `ParticleViewer.destroy`: removes the visible class and restores overflow
if open, cancels and nulls both animation-frame ids, cleans up the scene,
disposes and nulls the renderer, removes all image handlers, and removes the
backdrop images. -/
def destroy (s : ViewerState) : ViewerState × List GpuEvent :=
  let s1 := (if s.containerVisible then
    { s with containerVisible := false, overflowHidden := false } else s)
  let cancels := ((if s1.animationId.isSome then [GpuEvent.cancelFrame] else []) ++
    (if s1.renderId.isSome then [GpuEvent.cancelFrame] else []))
  let s2 := { s1 with animationId := none, renderId := none }
  let c := cleanupScene s2
  let s4 := (if c.1.renderer then { c.1 with renderer := false } else c.1)
  let rendererEvents := (if c.1.renderer then [GpuEvent.disposeRenderer] else [])
  ({ s4 with handlersCount := 0, bgCount := 0 }, cancels ++ c.2 ++ rendererEvents)

def destroyState (s : ViewerState) : ViewerState := (destroy s).1

def destroyTrace (s : ViewerState) : List GpuEvent := (destroy s).2

/-- One invocation of `ParticleViewer.animate`: stops (nulling renderId,
scheduling nothing) when the container is hidden and nothing animates;
otherwise renders and reschedules itself.  The Bool reports whether a new
frame was scheduled. -/
def animateStep (s : ViewerState) (newId : ℕ) : ViewerState × Bool :=
  if s.containerVisible = false ∧ s.isAnimating = false then
    ({ s with renderId := none }, false)
  else
    ({ s with renderId := some newId }, true)

/-- The zero-duration branch of `ParticleViewer.tweenProgress`: set uProgress
to the target; at target 1 show the mesh at opacity 1 and hide the point
cloud (uOpacity 0); at target 0 remove the container and caption `visible`
classes.  No frame is scheduled. -/
def tweenZero (target : ℚ) (s : ViewerState) : ViewerState :=
  let s1 := updMat s (fun m => { m with uProgress := target })
  if target = 1 then
    let s2 := updMesh s1 (fun m => { m with visible := true, opacity := 1 })
    match s2.points with
    | some p =>
      { s2 with points := some { p with visible := false, mat := { p.mat with uOpacity := 0 } } }
    | none => s2
  else if target = 0 then
    { s1 with containerVisible := false, captionVisible := false }
  else s1

/-- The `frame` callback loop of `ParticleViewer.tweenProgress`, driven by the
elapsed wall-clock times at which successive frames fire.  An empty list means
the pending frame never fired. -/
def tweenLoop (target duration startValue crossfadeStart : ℚ)
    (cb : ViewerState → ViewerState) : List ℚ → ViewerState → ViewerState
  | [], s => s
  | t :: ts, s =>
    let progress := min (t / duration) 1
    let eased := quartEaseQ progress
    let s1 := updMat s (fun m => { m with uProgress := startValue + (target - startValue) * eased })
    let s2 := (if target = 0 ∧ 3/5 < progress ∧ s1.containerVisible then
      { s1 with containerVisible := false, captionVisible := false } else s1)
    let s3 := (if target = 1 ∧ s2.mesh.isSome then
      (if crossfadeStart < progress then
        updMat (updMesh s2 (fun m =>
          { m with visible := true,
                   opacity := (progress - crossfadeStart) / (1 - crossfadeStart) }))
          (fun m => { m with uOpacity := 1 - (progress - crossfadeStart) / (1 - crossfadeStart) })
      else
        updMat (updMesh s2 (fun m => { m with visible := false, opacity := 0 }))
          (fun m => { m with uOpacity := 1 }))
      else s2)
    if progress < 1 then
      tweenLoop target duration startValue crossfadeStart cb ts
        { s3 with animationId := some (s3.animationId.getD 0 + 1) }
    else
      let s4 := (if target = 1 then
        (let s4a := (match s3.points with
          | some p =>
            { s3 with points := some { p with visible := false, mat := { p.mat with uOpacity := 0 } } }
          | none => s3)
        updMesh s4a (fun m => { m with visible := true, opacity := 1 }))
        else s3)
      cb { s4 with isAnimating := false }

/-- `ParticleViewer.tweenProgress`.  `rm` is the prefers-reduced-motion media
query; a reduced-motion or nonpositive duration runs the synchronous
zero-duration branch, otherwise isAnimating is set and the frame loop runs
over the sampled elapsed times. -/
def tweenProgress (rm : Bool) (target duration crossfadeStart : ℚ)
    (cb : ViewerState → ViewerState) (frames : List ℚ) (s : ViewerState) : ViewerState :=
  if s.points.isNone then s
  else
    let effD := if rm then 0 else duration
    if effD ≤ 0 then cb (tweenZero target s)
    else
      let startValue := (match s.points with | some p => p.mat.uProgress | none => 0)
      tweenLoop target duration startValue crossfadeStart cb frames
        { s with isAnimating := true }

/-- The `onAnimationComplete` callback of `ParticleViewer.close`: removes the
visible classes, restores body overflow, cleans up the scene, removes the
backdrop images, and focuses the current image's control element when it
exists. -/
def closeOnComplete (s : ViewerState) : ViewerState :=
  let s1 := { s with containerVisible := false, captionVisible := false, overflowHidden := false }
  let s2 : ViewerState := { (cleanupScene s1).1 with bgCount := 0 }
  if s2.currentIndex < s2.imagesLen then
    { s2 with focus := some (FocusTarget.image s2.currentIndex) }
  else s2

/-- `ParticleViewer.close`: a no-op while animating or without a session;
otherwise hides the mesh, shows the point cloud at full opacity in close mode
(uMode 1), and tweens progress to 0 with the completion callback. -/
def close (rm : Bool) (closeDuration crossfadeStart : ℚ) (frames : List ℚ)
    (s : ViewerState) : ViewerState :=
  if s.isAnimating || s.points.isNone then s
  else
    let s1 := updMesh s (fun m => { m with visible := false, opacity := 0 })
    let s2 := (match s1.points with
      | some p =>
        { s1 with points := some { p with visible := true, mat := { p.mat with uOpacity := 1, uMode := 1 } } }
      | none => s1)
    tweenProgress rm 0 closeDuration crossfadeStart closeOnComplete frames s2

/-- The uniforms of a freshly created point-cloud material in
`ParticleViewer.open`. -/
def initialMat (tex : ℕ) : PointsMat :=
  { uProgress := 0, uOpacity := 1, uMode := 0, uDispersion := 0, uTextureMix := 0,
    uTexture := tex, uTextureNext := tex }

/-- The part of `ParticleViewer.open` that runs before the texture load:
cleanup of any existing session, Three.js initialization, current index and
caption updates. -/
def openPre (idx : ℕ) (s : ViewerState) : ViewerState :=
  let s1 := (if s.points.isSome then (cleanupScene s).1 else s)
  { s1 with scene := true, renderer := true, currentIndex := idx, captionVisible := true }

/-- The texture-load success callback of `ParticleViewer.open`: adds the
backdrop image, creates the point cloud and the (hidden) mesh, shows the
container, locks body scroll, focuses the close button, tweens progress to 1,
and starts the render loop if it is not running. -/
def openLoaded (rm : Bool) (tex posFrom : ℕ) (openDuration crossfadeStart : ℚ)
    (frames : List ℚ) (s : ViewerState) : ViewerState :=
  let s2 := { s with
    bgCount := s.bgCount + 1,
    points := some { mat := initialMat tex, visible := true, positionsFrom := posFrom },
    mesh := some { visible := false, opacity := 0, map := tex },
    containerVisible := true,
    overflowHidden := true,
    focus := some FocusTarget.closeButton }
  let s3 := tweenProgress rm 1 openDuration crossfadeStart (fun st => st) frames s2
  if s3.renderId.isNone then { s3 with renderId := some 1 } else s3

/-- `ParticleViewer.open` as a whole: guarded by isAnimating; the texture
loader invokes the success callback only when the load succeeds — the code
installs no error callback, so a failed load leaves the state as it was after
`openPre`. -/
def openAttempt (rm : Bool) (idx tex posFrom : ℕ) (openDuration crossfadeStart : ℚ)
    (loadOk : Bool) (frames : List ℚ) (s : ViewerState) : ViewerState :=
  if s.isAnimating then s
  else
    let s1 := openPre idx s
    if loadOk then openLoaded rm tex posFrom openDuration crossfadeStart frames s1 else s1

/-- `open` immediately followed by `close`. -/
def openThenClose (rm : Bool) (idx tex posFrom : ℕ)
    (openDuration closeDuration crossfadeStart : ℚ)
    (openFrames closeFrames : List ℚ) (s : ViewerState) : ViewerState :=
  close rm closeDuration crossfadeStart closeFrames
    (openAttempt rm idx tex posFrom openDuration crossfadeStart true openFrames s)

/-- The observable DOM state: container/caption visible classes, body
overflow, focused element, backdrop count. -/
def domProjection (s : ViewerState) : Bool × Bool × Bool × Option FocusTarget × ℕ :=
  (s.containerVisible, s.captionVisible, s.overflowHidden, s.focus, s.bgCount)

/-- One `disperseFrame` of `ParticleViewer.transitionTo` at elapsed time `t`:
ramps uDispersion and uTextureMix with the smoothstep ease of the clamped
stage progress `min(t/800, 1)`. -/
def disperseStep (t : ℚ) (s : ViewerState) : ViewerState :=
  let ease := smoothEase (min (t / 800) 1)
  updMat s (fun m => { m with uDispersion := ease, uTextureMix := ease })

/-- The dispersion-stage frame loop: returns the state at the completing frame
(stage progress 1), or none if the sampled frames never reach 800 ms. -/
def disperseFrames : List ℚ → ViewerState → Option ViewerState
  | [], _ => none
  | t :: ts, s =>
    let s1 := disperseStep t s
    if min (t / 800) 1 < 1 then disperseFrames ts s1 else some s1

/-- `ParticleViewer.swapImageContent`: adds the new backdrop, moves the
current index and caption to the new image, points both texture slots at the
new texture, resets uTextureMix to 0, remaps the mesh material, and replaces
the plane-geometry source positions with the new image's. -/
def swapImageContent (newIndex tex posFrom : ℕ) (s : ViewerState) : ViewerState :=
  if s.points.isNone || s.mesh.isNone then s
  else
    let s1 := { s with bgCount := s.bgCount + 1, currentIndex := newIndex, captionVisible := true }
    let s2 := updMat s1 (fun m => { m with uTexture := tex, uTextureNext := tex, uTextureMix := 0 })
    let s3 := updMesh s2 (fun m => { m with map := tex })
    match s3.points with
    | some p => { s3 with points := some { p with positionsFrom := posFrom } }
    | none => s3

/-- One `assembleFrame` of `ParticleViewer.animateReassembly` at elapsed time
`t`: sets uDispersion to `1 - (1-(1-p)^4)` = `(1-p)^4` for the clamped stage
progress, and past the half-way crossfade point shows the mesh with opacity
`(p-0.5)/0.5` while fading the point cloud to `1 -` that value. -/
def assembleStep (t : ℚ) (s : ViewerState) : ViewerState :=
  let progress := min (t / 800) 1
  let s1 := updMat s (fun m => { m with uDispersion := 1 - quartEaseQ progress })
  if 1/2 < progress ∧ s1.mesh.isSome ∧ s1.points.isSome then
    let fade := (progress - 1/2) / (1 - 1/2)
    updMat (updMesh s1 (fun m => { m with visible := true, opacity := fade }))
      (fun m => { m with uOpacity := 1 - fade })
  else s1

/-- The completion branch of `animateReassembly`: clears isAnimating, shows
the mesh at opacity 1, hides the point cloud. -/
def assembleFinalize (s : ViewerState) : ViewerState :=
  let s1 := { s with isAnimating := false }
  let s2 := updMesh s1 (fun m => { m with visible := true, opacity := 1 })
  match s2.points with
  | some p => { s2 with points := some { p with visible := false } }
  | none => s2

/-- The reassembly-stage frame loop. -/
def assembleFrames : List ℚ → ViewerState → Option ViewerState
  | [], _ => none
  | t :: ts, s =>
    let s1 := assembleStep t s
    if min (t / 800) 1 < 1 then assembleFrames ts s1 else some (assembleFinalize s1)

/-- `ParticleViewer.transitionTo`.  `srcOk` reflects whether the new item has
a resolvable source; `loadOk` whether the texture load succeeds; `ts1`/`ts2`
are the sampled elapsed times of the dispersion and reassembly stages. -/
def transitionTo (rm : Bool) (newIndex tex posFrom : ℕ) (srcOk loadOk : Bool)
    (ts1 ts2 : List ℚ) (s : ViewerState) : ViewerState :=
  if s.isAnimating then s
  else
    let s0 := { s with isAnimating := true }
    if !srcOk || s0.points.isNone || s0.mesh.isNone then { s0 with isAnimating := false }
    else
      let s1 := { s0 with captionVisible := false }
      if !loadOk then { s1 with isAnimating := false, errorLog := s1.errorLog + 1 }
      else if rm then
        let s2 := swapImageContent newIndex tex posFrom s1
        let s3 := updMesh s2 (fun m => { m with visible := true, opacity := 1 })
        let s4 := (match s3.points with
          | some p => { s3 with points := some { p with visible := false } }
          | none => s3)
        { s4 with isAnimating := false }
      else
        let s2 := updMesh s1 (fun m => { m with visible := false })
        let s3 := (match s2.points with
          | some p =>
            { s2 with points := some { p with visible := true, mat := { p.mat with uOpacity := 1, uTextureNext := tex } } }
          | none => s2)
        match disperseFrames ts1 s3 with
        | none => s3
        | some s4 =>
          let s5 := swapImageContent newIndex tex posFrom s4
          match assembleFrames ts2 s5 with
          | none => s5
          | some s6 => s6

/-- `ParticleViewer.next`: wraps the index modulo the image count. -/
def nextImage (rm : Bool) (tex posFrom : ℕ) (srcOk loadOk : Bool)
    (ts1 ts2 : List ℚ) (s : ViewerState) : ViewerState :=
  if s.isAnimating || s.imagesLen ≤ 1 then s
  else transitionTo rm ((s.currentIndex + 1) % s.imagesLen) tex posFrom srcOk loadOk ts1 ts2 s

/-- A fresh (closed) viewer state used by concrete instantiations. -/
def sampleState : ViewerState :=
  { containerVisible := false, captionVisible := false, overflowHidden := false,
    isAnimating := false, currentIndex := 0, imagesLen := 3, points := none,
    mesh := none, renderer := false, scene := false, animationId := none,
    renderId := none, handlersCount := 2, bgCount := 0, focus := none, errorLog := 0 }

/-- A concrete open-session state used by concrete instantiations. -/
def sampleOpenState : ViewerState :=
  { sampleState with
    containerVisible := true, overflowHidden := true,
    points := (some { mat := initialMat 5, visible := false, positionsFrom := 0 }),
    mesh := (some { visible := true, opacity := 1, map := 5 }),
    scene := true, renderer := true, renderId := some 1 }

/-- A concrete mid-navigation state whose texture slots differ. -/
def sampleSwapState : ViewerState :=
  { sampleOpenState with
    points := (some { mat := { initialMat 5 with uTextureNext := 6 }, visible := true, positionsFrom := 0 }),
    animationId := some 7 }

/-- The state at the completing frame of the dispersion stage: both ramped
uniforms end at 1. -/
def dispersionStageResult (s : ViewerState) : ViewerState :=
  updMat s (fun m => { m with uDispersion := 1, uTextureMix := 1 })

/-- The state after the completing frame of the reassembly stage and its
completion branch: uDispersion ends at 0, the mesh is shown at opacity 1, the
point cloud is faded out and hidden, isAnimating is cleared. -/
def reassemblyStageResult (s : ViewerState) : ViewerState :=
  let s1 := updMat s (fun m => { m with uDispersion := 0 })
  let s2 := (if s1.mesh.isSome ∧ s1.points.isSome then
    updMat (updMesh s1 (fun m => { m with visible := true, opacity := 1 }))
      (fun m => { m with uOpacity := 0 })
    else s1)
  assembleFinalize s2

/-- Helper: with delay in [0,1), global progress 1 remaps to local progress 1. -/
theorem localProgress_one_of_delay_lt_one (d : ℚ) (h1 : d < 1) : localProgress 1 d = 1 := by
  have hne : (1 : ℚ) - d ≠ 0 := by intro h; nlinarith
  simp only [localProgress, clampQ]
  rw [div_self hne]
  norm_num

/-- Helper: with delay in [0,1), global progress 0 remaps to local progress 0. -/
theorem localProgress_zero_of_delay_nonneg (d : ℚ) (h0 : 0 ≤ d) (h1 : d < 1) :
    localProgress 0 d = 0 := by
  have hq : (0 - d) / (1 - d) ≤ 0 :=
    div_nonpos_of_nonpos_of_nonneg (by linarith) (by linarith)
  simp only [localProgress, clampQ]
  rw [max_eq_right hq]
  norm_num

/-- C1: for every particle with delay in [0,1), at uProgress = 1 and
uDispersion = 0 the delay remapping yields localProgress = 1, and the vertex
shader position function evaluates exactly to the flat planar grid position
finalPos: at local progress 1 the settle window has fully attenuated the
disintegration offset, z-separation and float noise, and the Bezier evaluates
at its endpoint.  This holds for every choice of the trig/sqrt built-ins and of
uTime and uMode. -/
theorem shader_converges_to_final_at_progress_one
    (sinF cosF sqrtF : ℚ → ℚ) (uTime uMode : ℚ) (aStart aCurve finalPos : Vec3)
    (d : ℚ) (h0 : 0 ≤ d) (h1 : d < 1) :
    localProgress 1 d = 1 ∧
      getParticlePosition sinF cosF sqrtF uTime uMode 0 aStart aCurve
        (localProgress 1 d) finalPos = finalPos := by
  refine ⟨localProgress_one_of_delay_lt_one d h1, ?_⟩
  rw [localProgress_one_of_delay_lt_one d h1]
  cases aStart
  cases aCurve
  cases finalPos
  simp only [getParticlePosition, vadd, vsmul, vdot, vmix, mixQ, smoothstepQ, clampQ,
    bezierQuadratic, vnormalize, Vec3.mk.injEq]
  norm_num

/-- C1 witness: concrete instantiation at delay 0 and concrete attributes. -/
theorem shader_converges_to_final_at_progress_one_witness :
    localProgress 1 0 = 1 ∧
      getParticlePosition (fun _ => 0) (fun _ => 0) (fun _ => 0) 5 0 0
        ⟨3, 4, 0⟩ ⟨1, -1, 0⟩ (localProgress 1 0) ⟨7, 8, 9⟩ = ⟨7, 8, 9⟩ :=
  shader_converges_to_final_at_progress_one (fun _ => 0) (fun _ => 0) (fun _ => 0) 5 0
    ⟨3, 4, 0⟩ ⟨1, -1, 0⟩ ⟨7, 8, 9⟩ 0 (by norm_num) (by norm_num)

/-- C2 counterexample: in opening mode (uMode = 0) the claim "at uProgress = 0
the position equals startPosition" is false.  At local progress 0 the
disintegration strength is (1-0)^2 * mix(1, _, 0) = 1, so the position is
displaced by 200 * disperseDir from the start position.  The concrete
instantiation uses start = (0.001, 0.001, 0) and curveOffset = 0, for which
the normalize argument is (0.002, 0.002, 0.001) with exact length 0.003; the
supplied sqrt function returns that exact value, and the supplied sin/cos
agree with the real sin/cos at every argument at which the shader evaluates
them here (all are 0). -/
theorem rest_identity_fails_in_open_mode :
    getParticlePosition (fun _ => 0) (fun _ => 1) (fun _ => 3/1000) 0 0 0
      ⟨1/1000, 1/1000, 0⟩ ⟨0, 0, 0⟩ (localProgress 0 0) ⟨0, 0, 0⟩ ≠
      ⟨1/1000, 1/1000, 0⟩ := by
  norm_num [getParticlePosition, localProgress, vadd, vsmul, vdot, vmix, mixQ,
    smoothstepQ, clampQ, bezierQuadratic, vnormalize, Vec3.mk.injEq]

/-- C2 (amended): at uProgress = 0 the delay remapping yields localProgress = 0,
and in closing mode (uMode = 1, the mode in which the viewer rests at progress
0) with uDispersion = 0 the vertex shader position function evaluates exactly
to startPosition: the close-mode disintegration gate smoothstep(0, 0.3, p)
vanishes at p = 0, the Bezier evaluates at its start point, and the float
noise carries the factor sin(0) = 0 (supplied as a hypothesis on the
abstracted sine).  In opening mode (uMode = 0) the identity fails, see the
counterexample. -/
theorem rest_identity_holds_in_close_mode
    (sinF cosF sqrtF : ℚ → ℚ) (uTime : ℚ) (aStart aCurve finalPos : Vec3)
    (d : ℚ) (hsin : sinF 0 = 0) (h0 : 0 ≤ d) (h1 : d < 1) :
    localProgress 0 d = 0 ∧
      getParticlePosition sinF cosF sqrtF uTime 1 0 aStart aCurve
        (localProgress 0 d) finalPos = aStart := by
  refine ⟨localProgress_zero_of_delay_nonneg d h0 h1, ?_⟩
  rw [localProgress_zero_of_delay_nonneg d h0 h1]
  cases aStart
  cases aCurve
  cases finalPos
  simp only [getParticlePosition, vadd, vsmul, vdot, vmix, mixQ, smoothstepQ, clampQ,
    bezierQuadratic, vnormalize, Vec3.mk.injEq]
  norm_num [hsin]

/-- C2 amended witness: concrete instantiation in close mode. -/
theorem rest_identity_holds_in_close_mode_witness :
    localProgress 0 (1/4) = 0 ∧
      getParticlePosition (fun _ => 0) (fun _ => 1) (fun _ => 3/1000) 0 1 0
        ⟨1/1000, 1/1000, 0⟩ ⟨0, 0, 0⟩ (localProgress 0 (1/4)) ⟨2, 3, 0⟩ =
        ⟨1/1000, 1/1000, 0⟩ :=
  rest_identity_holds_in_close_mode (fun _ => 0) (fun _ => 1) (fun _ => 3/1000) 0
    ⟨1/1000, 1/1000, 0⟩ ⟨0, 0, 0⟩ ⟨2, 3, 0⟩ (1/4) rfl (by norm_num) (by norm_num)

/-- C3: for UV coordinates in [0,1]^2 and jitter sample j in [0,1), the
generated delay lies in [0, 0.30); a particle exactly at the corner distance
(normalizedDistance = 1) receives delay j * 0.05 < 0.05; the exact center
receives 0.25 + j * 0.05; and delays are monotonically non-increasing with
distance-from-center up to the jitter bound 0.05.  The square root used by the
sampler is abstracted as any monotone nonnegative function positive at the
corner distance squared. -/
theorem delay_bounds_and_monotonicity
    (sqrtF : ℚ → ℚ)
    (hmono : ∀ a b : ℚ, 0 ≤ a → a ≤ b → sqrtF a ≤ sqrtF b)
    (hnn : ∀ a : ℚ, 0 ≤ a → 0 ≤ sqrtF a)
    (hpos : 0 < sqrtF (1/2 * (1/2) + 1/2 * (1/2)))
    (u v j : ℚ) (hu0 : 0 ≤ u) (hu1 : u ≤ 1) (hv0 : 0 ≤ v) (hv1 : v ≤ 1)
    (hj0 : 0 ≤ j) (hj1 : j < 1) :
    (0 ≤ delaySample sqrtF u v j ∧ delaySample sqrtF u v j < 3/10) ∧
    ((u - 1/2) * (u - 1/2) + (v - 1/2) * (v - 1/2) = 1/2 * (1/2) + 1/2 * (1/2) →
      delaySample sqrtF u v j = j * (1/20)) ∧
    (u = 1/2 → v = 1/2 → sqrtF 0 = 0 →
      delaySample sqrtF u v j = 1/4 + j * (1/20)) ∧
    (∀ u' v' j', 0 ≤ j' → j' < 1 →
      (u - 1/2) * (u - 1/2) + (v - 1/2) * (v - 1/2) ≤
        (u' - 1/2) * (u' - 1/2) + (v' - 1/2) * (v' - 1/2) →
      delaySample sqrtF u' v' j' ≤ delaySample sqrtF u v j + 1/20) := by
  have hsum0 : (0:ℚ) ≤ (u - 1/2) * (u - 1/2) + (v - 1/2) * (v - 1/2) := by
    nlinarith [mul_self_nonneg (u - 1/2), mul_self_nonneg (v - 1/2)]
  have hsum1 : (u - 1/2) * (u - 1/2) + (v - 1/2) * (v - 1/2) ≤ 1/2 * (1/2) + 1/2 * (1/2) := by
    nlinarith
  have hD0 : 0 ≤ sqrtF ((u - 1/2) * (u - 1/2) + (v - 1/2) * (v - 1/2)) := hnn _ hsum0
  have hDM : sqrtF ((u - 1/2) * (u - 1/2) + (v - 1/2) * (v - 1/2)) ≤
      sqrtF (1/2 * (1/2) + 1/2 * (1/2)) := hmono _ _ hsum0 hsum1
  have hnd0 : 0 ≤ sqrtF ((u - 1/2) * (u - 1/2) + (v - 1/2) * (v - 1/2)) /
      sqrtF (1/2 * (1/2) + 1/2 * (1/2)) := div_nonneg hD0 (le_of_lt hpos)
  have hnd1 : sqrtF ((u - 1/2) * (u - 1/2) + (v - 1/2) * (v - 1/2)) /
      sqrtF (1/2 * (1/2) + 1/2 * (1/2)) ≤ 1 := (div_le_one hpos).mpr hDM
  refine ⟨⟨?_, ?_⟩, ?_, ?_, ?_⟩
  · simp only [delaySample]
    nlinarith
  · simp only [delaySample]
    nlinarith
  · intro hedge
    simp only [delaySample]
    rw [hedge, div_self (ne_of_gt hpos)]
    ring
  · intro hu hv hzero
    subst hu
    subst hv
    norm_num [delaySample, hzero]
  · intro u' v' j' hj'0 hj'1 hfar
    have hsum0' : (0:ℚ) ≤ (u' - 1/2) * (u' - 1/2) + (v' - 1/2) * (v' - 1/2) :=
      le_trans hsum0 hfar
    have hDD : sqrtF ((u - 1/2) * (u - 1/2) + (v - 1/2) * (v - 1/2)) ≤
        sqrtF ((u' - 1/2) * (u' - 1/2) + (v' - 1/2) * (v' - 1/2)) :=
      hmono _ _ hsum0 hfar
    have hdiv : sqrtF ((u - 1/2) * (u - 1/2) + (v - 1/2) * (v - 1/2)) /
        sqrtF (1/2 * (1/2) + 1/2 * (1/2)) ≤
        sqrtF ((u' - 1/2) * (u' - 1/2) + (v' - 1/2) * (v' - 1/2)) /
        sqrtF (1/2 * (1/2) + 1/2 * (1/2)) :=
      div_le_div_of_nonneg_right hDD (le_of_lt hpos)
    simp only [delaySample]
    nlinarith

/-- C3 witness: instantiation with the identity as the abstract square root
(monotone, nonnegative, positive at the corner distance squared) at the corner
UV (0,0) with jitter 1/2. -/
theorem delay_bounds_and_monotonicity_witness :
    (0 ≤ delaySample (fun x => x) 0 0 (1/2) ∧ delaySample (fun x => x) 0 0 (1/2) < 3/10) ∧
    ((0 - 1/2) * (0 - 1/2) + ((0:ℚ) - 1/2) * (0 - 1/2) = 1/2 * (1/2) + 1/2 * (1/2) →
      delaySample (fun x => x) 0 0 (1/2) = 1/2 * (1/20)) ∧
    ((0:ℚ) = 1/2 → (0:ℚ) = 1/2 → (fun x : ℚ => x) 0 = 0 →
      delaySample (fun x => x) 0 0 (1/2) = 1/4 + 1/2 * (1/20)) ∧
    (∀ u' v' j' : ℚ, 0 ≤ j' → j' < 1 →
      (0 - 1/2) * (0 - 1/2) + ((0:ℚ) - 1/2) * (0 - 1/2) ≤
        (u' - 1/2) * (u' - 1/2) + (v' - 1/2) * (v' - 1/2) →
      delaySample (fun x => x) u' v' j' ≤ delaySample (fun x => x) 0 0 (1/2) + 1/20) :=
  delay_bounds_and_monotonicity (fun x => x)
    (fun _ _ _ h => h) (fun _ h => h) (by norm_num) 0 0 (1/2)
    (by norm_num) (by norm_num) (by norm_num) (by norm_num) (by norm_num) (by norm_num)

/-- C4 (code bug evaluation): the per-particle shape selection, with
`aCurveOffset.x = (rand - 0.5) * 4` for `rand` uniform in [0,1) and the
fragment-shader thresholds -0.2 / +0.2, selects a square exactly for
rand in [0.45, 0.55] (10% of the range), a circle exactly for rand < 0.45
(45%), and a triangle exactly for rand > 0.55 (45%) — not the 40% / 30% / 30%
split documented in the shader comments (which assume x in (-0.5, 0.5)). -/
theorem shape_selection_actual_proportions (r : ℚ) :
    (particleShape (curveOffsetX r) = ParticleShape.square ↔ 9/20 ≤ r ∧ r ≤ 11/20) ∧
    (particleShape (curveOffsetX r) = ParticleShape.circle ↔ r < 9/20) ∧
    (particleShape (curveOffsetX r) = ParticleShape.triangle ↔ 11/20 < r) := by
  by_cases h1 : (r - 1/2) * 4 < -(1/5)
  · have hr : r < 9/20 := by linarith
    simp only [particleShape, curveOffsetX, if_pos h1]
    refine ⟨?_, ?_, ?_⟩
    · simp only [reduceCtorEq, false_iff, not_and]
      intro h
      linarith
    · simp only [true_iff]
      exact hr
    · simp only [reduceCtorEq, false_iff, not_lt]
      linarith
  · by_cases h2 : (1/5 : ℚ) < (r - 1/2) * 4
    · have hr : 11/20 < r := by linarith
      simp only [particleShape, curveOffsetX, if_neg h1, if_pos h2]
      refine ⟨?_, ?_, ?_⟩
      · simp only [reduceCtorEq, false_iff, not_and]
        intro h
        linarith
      · simp only [reduceCtorEq, false_iff, not_lt]
        linarith
      · simp only [true_iff]
        exact hr
    · have hr1 : 9/20 ≤ r := by linarith
      have hr2 : r ≤ 11/20 := by linarith
      simp only [particleShape, curveOffsetX, if_neg h1, if_neg h2]
      refine ⟨?_, ?_, ?_⟩
      · simp only [true_iff]
        exact ⟨hr1, hr2⟩
      · simp only [reduceCtorEq, false_iff, not_lt]
        exact hr1
      · simp only [reduceCtorEq, false_iff, not_lt]
        exact hr2

/-- Helper: the update loop preserves the array length. -/
theorem startPositionsLoop_length (rect : RectQ) (vpW vpH viewW viewH : ℚ) (uvs : List ℚ) :
    ∀ (n : ℕ) (arr : List ℚ),
      (startPositionsLoop rect vpW vpH viewW viewH uvs n arr).length = arr.length := by
  intro n
  induction n with
  | zero => intro arr; rfl
  | succ n ih =>
    intro arr
    simp [startPositionsLoop, writeStartPosition, ih]

/-- Helper: the update loop never writes a z slot. -/
theorem startPositionsLoop_get_z (rect : RectQ) (vpW vpH viewW viewH : ℚ) (uvs : List ℚ) :
    ∀ (n : ℕ) (arr : List ℚ) (i : ℕ),
      (startPositionsLoop rect vpW vpH viewW viewH uvs n arr)[3 * i + 2]? = arr[3 * i + 2]? := by
  intro n
  induction n with
  | zero => intro arr i; rfl
  | succ n ih =>
    intro arr i
    simp only [startPositionsLoop, writeStartPosition]
    rw [List.getElem?_set_ne (by omega), List.getElem?_set_ne (by omega), ih]

/-- Helper: the update loop writes the x and y slots of every processed vertex
with the viewport-mapped source pixel coordinates. -/
theorem startPositionsLoop_get_xy (rect : RectQ) (vpW vpH viewW viewH : ℚ) (uvs : List ℚ) :
    ∀ (n : ℕ) (arr : List ℚ) (i : ℕ), i < n → 3 * i + 1 < arr.length →
      (startPositionsLoop rect vpW vpH viewW viewH uvs n arr)[3 * i]? =
        some (startPosX rect vpW viewW (uvs.getD (2 * i) 0)) ∧
      (startPositionsLoop rect vpW vpH viewW viewH uvs n arr)[3 * i + 1]? =
        some (startPosY rect vpH viewH (uvs.getD (2 * i + 1) 0)) := by
  intro n
  induction n with
  | zero => intro arr i h; omega
  | succ n ih =>
    intro arr i hi hlen
    by_cases hin : i < n
    · have := ih arr i hin hlen
      simp only [startPositionsLoop, writeStartPosition]
      rw [List.getElem?_set_ne (by omega), List.getElem?_set_ne (by omega),
        List.getElem?_set_ne (by omega), List.getElem?_set_ne (by omega)]
      exact this
    · have hieq : i = n := by omega
      subst hieq
      simp only [startPositionsLoop, writeStartPosition]
      have hlen' : 3 * i + 1 <
          (startPositionsLoop rect vpW vpH viewW viewH uvs i arr).length := by
        rw [startPositionsLoop_length]; exact hlen
      constructor
      · rw [List.getElem?_set_ne (by omega)]
        exact List.getElem?_set_eq_of_lt _ (by omega)
      · exact List.getElem?_set_eq_of_lt _ (by simpa using hlen')

/-- C5: `updateStartPositions` modifies only the aStartPosition attribute,
deriving its x/y slots from the source image's new bounding rectangle via the
view mapping, and leaves aCurveOffset, aDelay, aRotationSpeed, the planar
final positions and the UVs unchanged (the z slots of aStartPosition are not
rewritten either), preserving particle identity and flight parameters. -/
theorem updateStartPositions_only_modifies_start_attribute
    (g : GeoAttrs) (rect : RectQ) (imageWidth imageHeight padding vpW vpH : ℚ) :
    (updateStartPositions g rect imageWidth imageHeight padding vpW vpH).curveOffsets =
      g.curveOffsets ∧
    (updateStartPositions g rect imageWidth imageHeight padding vpW vpH).delays = g.delays ∧
    (updateStartPositions g rect imageWidth imageHeight padding vpW vpH).rotationSpeeds =
      g.rotationSpeeds ∧
    (updateStartPositions g rect imageWidth imageHeight padding vpW vpH).positions =
      g.positions ∧
    (updateStartPositions g rect imageWidth imageHeight padding vpW vpH).uvs = g.uvs ∧
    (updateStartPositions g rect imageWidth imageHeight padding vpW vpH).startPositions.length =
      g.startPositions.length ∧
    ∀ i : ℕ, 3 * i + 2 < g.startPositions.length →
      (updateStartPositions g rect imageWidth imageHeight padding vpW vpH).startPositions[3 * i]? =
        some (startPosX rect vpW
          (calculateViewDimensions imageWidth imageHeight padding vpW vpH).1
          (g.uvs.getD (2 * i) 0)) ∧
      (updateStartPositions g rect imageWidth imageHeight padding vpW vpH).startPositions[3 * i + 1]? =
        some (startPosY rect vpH
          (calculateViewDimensions imageWidth imageHeight padding vpW vpH).2
          (g.uvs.getD (2 * i + 1) 0)) ∧
      (updateStartPositions g rect imageWidth imageHeight padding vpW vpH).startPositions[3 * i + 2]? =
        g.startPositions[3 * i + 2]? := by
  refine ⟨rfl, rfl, rfl, rfl, rfl, startPositionsLoop_length _ _ _ _ _ _ _ _, ?_⟩
  intro i hi
  have hxy := startPositionsLoop_get_xy rect vpW vpH
    (calculateViewDimensions imageWidth imageHeight padding vpW vpH).1
    (calculateViewDimensions imageWidth imageHeight padding vpW vpH).2
    g.uvs (g.startPositions.length / 3) g.startPositions i (by omega) (by omega)
  exact ⟨hxy.1, hxy.2, startPositionsLoop_get_z _ _ _ _ _ _ _ _ _⟩

/-- C5 witness: a concrete three-entry geometry (one vertex). -/
theorem updateStartPositions_only_modifies_start_attribute_witness :
    (updateStartPositions ⟨[1, 2, 9], [5], [6], [7], [8], [0, 0]⟩ ⟨0, 0, 10, 10⟩
        10 10 1 10 10).startPositions[2]? = some 9 := by
  have h := (updateStartPositions_only_modifies_start_attribute
    ⟨[1, 2, 9], [5], [6], [7], [8], [0, 0]⟩ ⟨0, 0, 10, 10⟩ 10 10 1 10 10).2.2.2.2.2.2
    0 (by norm_num)
  simpa using h.2.2

/-- C9: on the teardown paths (`cleanupScene`, reached from close completion
and session replacement, and `destroy`), every pending animation-frame
cancellation precedes every GPU disposal in the emitted event order; a texture
shared between the uTexture and uTextureNext slots is disposed exactly once
(uTextureNext is disposed only when it differs from uTexture), and after
`destroy` the render loop stops: its next invocation schedules no frame and
leaves renderId null. -/
theorem teardown_cancel_order_and_single_dispose :
    (∀ s : ViewerState, cancelsBeforeDisposes (destroyTrace s) = true) ∧
    (∀ s : ViewerState, cancelsBeforeDisposes (cleanupSceneTrace s) = true) ∧
    (∀ (s : ViewerState) (p : PointsObj), s.points = some p → s.scene = true →
      p.mat.uTextureNext = p.mat.uTexture →
      (cleanupSceneTrace s).count (GpuEvent.disposeTexture p.mat.uTexture) = 1) ∧
    (∀ (s : ViewerState) (p : PointsObj), s.points = some p → s.scene = true →
      p.mat.uTextureNext ≠ p.mat.uTexture →
      (cleanupSceneTrace s).count (GpuEvent.disposeTexture p.mat.uTexture) = 1 ∧
      (cleanupSceneTrace s).count (GpuEvent.disposeTexture p.mat.uTextureNext) = 1) ∧
    (∀ (s : ViewerState) (n : ℕ),
      (animateStep (destroyState s) n).2 = false ∧
      (animateStep (destroyState s) n).1.renderId = none) := by
  refine ⟨?_, ?_, ?_, ?_, ?_⟩
  · intro s
    obtain ⟨cv, capv, ov, ia, ci, il, pts, msh, rnd, scn, aid, rid, hc, bgc, foc, el⟩ := s
    unfold destroyTrace destroy cleanupScene
    cases cv <;> cases pts <;> cases scn <;> cases aid <;> cases rid <;> cases msh <;>
        cases rnd <;>
      first
      | rfl
      | (simp only [] <;> split <;> rfl)
      | (simp <;> try rfl) <;> (try split <;> rfl)
  · intro s
    obtain ⟨cv, capv, ov, ia, ci, il, pts, msh, rnd, scn, aid, rid, hc, bgc, foc, el⟩ := s
    unfold cleanupSceneTrace cleanupScene
    cases pts <;> cases scn <;> cases aid <;> cases msh <;>
      first
      | rfl
      | (simp only [] <;> split <;> rfl)
      | (simp <;> try rfl) <;> (try split <;> rfl)
  · intro s p hp hs hte
    unfold cleanupSceneTrace cleanupScene
    simp only [hp, hs]
    rw [if_neg (not_not_intro hte)]
    rcases ha : s.animationId with _ | aid <;> rcases hm : s.mesh with _ | m <;>
      simp [List.count_append, List.count_cons, List.count_nil]
  · intro s p hp hs hte
    unfold cleanupSceneTrace cleanupScene
    simp only [hp, hs]
    rw [if_pos hte]
    rcases ha : s.animationId with _ | aid <;> rcases hm : s.mesh with _ | m <;>
      constructor <;>
      simp [List.count_append, List.count_cons, List.count_nil, hte, Ne.symm hte]
  · intro s n
    obtain ⟨cv, capv, ov, ia, ci, il, pts, msh, rnd, scn, aid, rid, hc, bgc, foc, el⟩ := s
    unfold destroyState destroy cleanupScene animateStep
    cases cv <;> cases pts <;> cases scn <;> cases rnd <;> exact ⟨rfl, rfl⟩

/-- C9 witness: concrete dispose counts for a shared-texture session and a
mid-navigation session whose slots differ. -/
theorem teardown_cancel_order_and_single_dispose_witness :
    (cleanupSceneTrace sampleOpenState).count (GpuEvent.disposeTexture 5) = 1 ∧
    ((cleanupSceneTrace sampleSwapState).count (GpuEvent.disposeTexture 5) = 1 ∧
      (cleanupSceneTrace sampleSwapState).count (GpuEvent.disposeTexture 6) = 1) :=
  ⟨teardown_cancel_order_and_single_dispose.2.2.1 sampleOpenState
      { mat := initialMat 5, visible := false, positionsFrom := 0 } rfl rfl rfl,
    teardown_cancel_order_and_single_dispose.2.2.2.1 sampleSwapState
      { mat := { initialMat 5 with uTextureNext := 6 }, visible := true, positionsFrom := 0 }
      rfl rfl (by simp [initialMat])⟩

/-- C10: `destroy` is idempotent — `destroy (destroy s) = destroy s` on the
viewer state for every state; and for every state satisfying the class
invariants (a point cloud implies an initialized scene, a mesh implies a point
cloud) a single `destroy` nulls the resource fields (renderer, currentPoints,
currentMesh), both animation-frame ids, and empties the handler map, so the
second call changes nothing. -/
theorem destroy_idempotent :
    (∀ s : ViewerState, destroyState (destroyState s) = destroyState s) ∧
    (∀ s : ViewerState, (s.points.isSome → s.scene = true) →
      (s.mesh.isSome → s.points.isSome) →
      (destroyState s).points = none ∧ (destroyState s).mesh = none ∧
      (destroyState s).renderer = false ∧ (destroyState s).animationId = none ∧
      (destroyState s).renderId = none ∧ (destroyState s).handlersCount = 0) := by
  constructor
  · intro s
    obtain ⟨cv, capv, ov, ia, ci, il, pts, msh, rnd, scn, aid, rid, hc, bgc, foc, el⟩ := s
    unfold destroyState destroy cleanupScene
    cases cv <;> cases pts <;> cases scn <;> cases msh <;> cases rnd <;> rfl
  · intro s hscene hmesh
    obtain ⟨cv, capv, ov, ia, ci, il, pts, msh, rnd, scn, aid, rid, hc, bgc, foc, el⟩ := s
    unfold destroyState destroy cleanupScene
    cases cv <;> cases pts <;> cases scn <;> cases msh <;> cases rnd <;>
      first
      | exact ⟨rfl, rfl, rfl, rfl, rfl, rfl⟩
      | (exfalso; simp at hscene hmesh)

/-- C10 witness: the open-session state. -/
theorem destroy_idempotent_witness :
    destroyState (destroyState sampleOpenState) = destroyState sampleOpenState ∧
    (destroyState sampleOpenState).points = none ∧
    (destroyState sampleOpenState).mesh = none ∧
    (destroyState sampleOpenState).renderer = false ∧
    (destroyState sampleOpenState).animationId = none ∧
    (destroyState sampleOpenState).renderId = none ∧
    (destroyState sampleOpenState).handlersCount = 0 :=
  ⟨destroy_idempotent.1 sampleOpenState,
    destroy_idempotent.2 sampleOpenState (fun _ => rfl) (fun _ => rfl)⟩

/-- C8 counterexample: the claim that every texture load failure during an
open attempt is reported (logged) is false — `ParticleViewer.open` passes no
error callback to the texture loader, so a failed open load logs nothing: the
error count is unchanged. -/
theorem open_load_failure_not_logged :
    ¬ (sampleState.errorLog <
      (openAttempt false 1 5 7 2000 (1/5) false [] sampleState).errorLog) := by
  decide

/-- C8 (amended): a texture load failure during a navigation attempt is
logged (error count incremented) and the attempt aborts with isAnimating
cleared, the point cloud, mesh, renderer, scene, current index and backdrops
all untouched (no resource released or leaked).  A load failure during an
open attempt (which installs no error callback) logs nothing and simply never
completes: the state is exactly the pre-load state — only the steps open
performs before starting the load have taken effect (scene and renderer
initialisation, the requested index, the caption), while the container class,
overflow, backdrop and all particle resources live in the success callback
and are untouched, with isAnimating still false and no points allocated. -/
theorem load_failure_recovery :
    (∀ (s : ViewerState) (rm : Bool) (idx tex posFrom : ℕ) (ts1 ts2 : List ℚ),
      s.isAnimating = false → s.points.isSome → s.mesh.isSome →
      (transitionTo rm idx tex posFrom true false ts1 ts2 s).isAnimating = false ∧
      (transitionTo rm idx tex posFrom true false ts1 ts2 s).errorLog = s.errorLog + 1 ∧
      (transitionTo rm idx tex posFrom true false ts1 ts2 s).points = s.points ∧
      (transitionTo rm idx tex posFrom true false ts1 ts2 s).mesh = s.mesh ∧
      (transitionTo rm idx tex posFrom true false ts1 ts2 s).renderer = s.renderer ∧
      (transitionTo rm idx tex posFrom true false ts1 ts2 s).scene = s.scene ∧
      (transitionTo rm idx tex posFrom true false ts1 ts2 s).currentIndex = s.currentIndex ∧
      (transitionTo rm idx tex posFrom true false ts1 ts2 s).bgCount = s.bgCount) ∧
    (∀ (s : ViewerState) (rm : Bool) (idx tex posFrom : ℕ) (d cs : ℚ) (fr : List ℚ),
      s.isAnimating = false → s.points = none →
      openAttempt rm idx tex posFrom d cs false fr s =
        { s with scene := true, renderer := true, currentIndex := idx, captionVisible := true } ∧
      (openAttempt rm idx tex posFrom d cs false fr s).errorLog = s.errorLog ∧
      (openAttempt rm idx tex posFrom d cs false fr s).isAnimating = false ∧
      (openAttempt rm idx tex posFrom d cs false fr s).points = none) := by
  constructor
  · intro s rm idx tex posFrom ts1 ts2 hia hp hm
    obtain ⟨cv, capv, ov, ia, ci, il, pts, msh, rnd, scn, aid, rid, hc, bgc, foc, el⟩ := s
    simp only at hia
    subst hia
    cases pts with
    | none => simp at hp
    | some p =>
      cases msh with
      | none => simp at hm
      | some m => exact ⟨rfl, rfl, rfl, rfl, rfl, rfl, rfl, rfl⟩
  · intro s rm idx tex posFrom d cs fr hia hp
    obtain ⟨cv, capv, ov, ia, ci, il, pts, msh, rnd, scn, aid, rid, hc, bgc, foc, el⟩ := s
    simp only at hia hp
    subst hia
    subst hp
    exact ⟨rfl, rfl, rfl, rfl⟩

/-- C8 amended witness: a failing navigation from the open-session state and a
failing open from the fresh state. -/
theorem load_failure_recovery_witness :
    ((transitionTo false 1 9 9 true false [] [] sampleOpenState).isAnimating = false ∧
      (transitionTo false 1 9 9 true false [] [] sampleOpenState).errorLog =
        sampleOpenState.errorLog + 1 ∧
      (transitionTo false 1 9 9 true false [] [] sampleOpenState).points =
        sampleOpenState.points ∧
      (transitionTo false 1 9 9 true false [] [] sampleOpenState).mesh =
        sampleOpenState.mesh ∧
      (transitionTo false 1 9 9 true false [] [] sampleOpenState).renderer =
        sampleOpenState.renderer ∧
      (transitionTo false 1 9 9 true false [] [] sampleOpenState).scene =
        sampleOpenState.scene ∧
      (transitionTo false 1 9 9 true false [] [] sampleOpenState).currentIndex =
        sampleOpenState.currentIndex ∧
      (transitionTo false 1 9 9 true false [] [] sampleOpenState).bgCount =
        sampleOpenState.bgCount) ∧
    (openAttempt false 1 5 7 2000 (1/5) false [] sampleState =
      { sampleState with scene := true, renderer := true, currentIndex := 1, captionVisible := true } ∧
      (openAttempt false 1 5 7 2000 (1/5) false [] sampleState).errorLog =
        sampleState.errorLog ∧
      (openAttempt false 1 5 7 2000 (1/5) false [] sampleState).isAnimating = false ∧
      (openAttempt false 1 5 7 2000 (1/5) false [] sampleState).points = none) :=
  ⟨load_failure_recovery.1 sampleOpenState false 1 9 9 [] [] rfl rfl rfl,
    load_failure_recovery.2 sampleState false 1 5 7 2000 (1/5) [] rfl rfl⟩

/-- A sampled elapsed time of at least 800 ms clamps the stage progress to 1. -/
theorem stage_progress_one (t : ℚ) (h : 800 ≤ t) : min (t / 800) 1 = 1 :=
  min_eq_right ((le_div_iff (by norm_num)).mpr (by linarith))

/-- The stage-continuation guard `progress < 1` holds exactly below 800 ms. -/
theorem stage_progress_lt (t : ℚ) : min (t / 800) 1 < 1 ↔ t < 800 := by
  rw [min_lt_iff]
  constructor
  · rintro (h | h)
    · exact (div_lt_one (by norm_num)).mp h
    · exact absurd h (lt_irrefl 1)
  · intro h
    exact Or.inl ((div_lt_one (by norm_num)).mpr h)

/-- A dispersion frame at or past 800 ms produces the stage-complete state. -/
theorem disperseStep_complete (t : ℚ) (s : ViewerState) (h : 800 ≤ t) :
    disperseStep t s = dispersionStageResult s := by
  have hse : smoothEase 1 = 1 := by norm_num [smoothEase]
  simp only [disperseStep, stage_progress_one t h, hse, dispersionStageResult]

/-- Earlier dispersion frames are absorbed by the stage-complete state (each
frame overwrites both ramped uniforms). -/
theorem dispersionStageResult_step (t : ℚ) (s : ViewerState) :
    dispersionStageResult (disperseStep t s) = dispersionStageResult s := by
  rcases hp : s.points with _ | p <;>
    simp only [dispersionStageResult, disperseStep, updMat, hp] <;> rfl

/-- If some sampled dispersion frame reaches 800 ms, the stage completes in
the stage-complete state. -/
theorem disperseFrames_complete :
    ∀ (ts : List ℚ) (s : ViewerState), (∃ t ∈ ts, 800 ≤ t) →
      disperseFrames ts s = some (dispersionStageResult s) := by
  intro ts
  induction ts with
  | nil => intro s h; simp at h
  | cons t ts ih =>
    intro s h
    by_cases ht : 800 ≤ t
    · simp only [disperseFrames, disperseStep_complete t s ht]
      rw [if_neg]
      simp only [stage_progress_lt]
      linarith
    · have htail : ∃ x ∈ ts, 800 ≤ x := by
        rcases h with ⟨x, hx, hx8⟩
        rcases List.mem_cons.mp hx with rfl | hmem
        · exact absurd hx8 ht
        · exact ⟨x, hmem, hx8⟩
      simp only [disperseFrames]
      rw [if_pos ((stage_progress_lt t).mpr (by linarith))]
      rw [ih _ htail, dispersionStageResult_step]

theorem quartEaseQ_one : quartEaseQ 1 = 1 := by norm_num [quartEaseQ]

/-- A reassembly frame at or past 800 ms, followed by the completion branch,
produces the stage-complete state. -/
theorem assembleStep_complete (t : ℚ) (s : ViewerState) (h : 800 ≤ t) :
    assembleFinalize (assembleStep t s) = reassemblyStageResult s := by
  obtain ⟨cv, capv, ov, ia, ci, il, pts, msh, rnd, scn, aid, rid, hc, bgc, foc, el⟩ := s
  cases pts <;> cases msh <;>
    norm_num [assembleStep, reassemblyStageResult, assembleFinalize, updMat, updMesh,
      stage_progress_one t h, quartEaseQ_one]

/-- Earlier reassembly frames are absorbed by the stage-complete state (every
field they touch is overwritten at completion). -/
theorem reassemblyStageResult_step (t : ℚ) (s : ViewerState) :
    reassemblyStageResult (assembleStep t s) = reassemblyStageResult s := by
  obtain ⟨cv, capv, ov, ia, ci, il, pts, msh, rnd, scn, aid, rid, hc, bgc, foc, el⟩ := s
  by_cases hcond : (1:ℚ)/2 < min (t / 800) 1 <;>
    cases pts <;> cases msh <;>
    simp only [assembleStep, reassemblyStageResult, assembleFinalize, updMat, updMesh,
      hcond, Option.isSome_some, Option.isSome_none, Bool.false_eq_true, eq_self_iff_true,
      true_and, and_true, and_false, false_and, if_true, if_false, ite_true, ite_false] <;>
    rfl

/-- If some sampled reassembly frame reaches 800 ms, the stage completes in
the stage-complete state. -/
theorem assembleFrames_complete :
    ∀ (ts : List ℚ) (s : ViewerState), (∃ t ∈ ts, 800 ≤ t) →
      assembleFrames ts s = some (reassemblyStageResult s) := by
  intro ts
  induction ts with
  | nil => intro s h; simp at h
  | cons t ts ih =>
    intro s h
    by_cases ht : 800 ≤ t
    · simp only [assembleFrames]
      rw [if_neg]
      · rw [assembleStep_complete t s ht]
      · simp only [stage_progress_lt]
        linarith
    · have htail : ∃ x ∈ ts, 800 ≤ x := by
        rcases h with ⟨x, hx, hx8⟩
        rcases List.mem_cons.mp hx with rfl | hmem
        · exact absurd hx8 ht
        · exact ⟨x, hmem, hx8⟩
      simp only [assembleFrames]
      rw [if_pos ((stage_progress_lt t).mpr (by linarith))]
      rw [ih _ htail, reassemblyStageResult_step]

set_option maxHeartbeats 1000000 in
/-- C6: navigation started from an open, non-animating session with reduced
motion off runs two 800 ms stages.  (1) Each dispersion frame at elapsed t
ramps uDispersion and uTextureMix to the smoothstep ease p*p*(3-2p) of the
clamped stage progress p = min(t/800, 1); a single frame completes the stage
exactly when t reaches 800 ms.  (2) Each reassembly frame sets uDispersion to
(1-p)^4 (the complement of the quartic ease 1-(1-p)^4), and past the half-way
point crossfades the point cloud into the mesh with fade (p-1/2)/(1/2).  On
completion of `next()` the active texture/geometry were swapped, uDispersion =
0, uTextureMix = 0, the current index is the next index modulo the image
count, the mesh is visible at opacity 1 with the new texture, the point cloud
is hidden, and isAnimating is false. -/
theorem navigation_two_stage_protocol :
    (∀ (t : ℚ) (st : ViewerState) (q : PointsObj), st.points = some q →
      ((disperseStep t st).points.map fun x => x.mat.uDispersion) =
        some (smoothEase (min (t / 800) 1)) ∧
      ((disperseStep t st).points.map fun x => x.mat.uTextureMix) =
        some (smoothEase (min (t / 800) 1))) ∧
    (∀ (t : ℚ) (st : ViewerState) (q : PointsObj), st.points = some q →
      ((assembleStep t st).points.map fun x => x.mat.uDispersion) =
        some (1 - quartEaseQ (min (t / 800) 1))) ∧
    (∀ (t : ℚ) (st : ViewerState) (q : PointsObj) (mm : MeshObj), st.points = some q →
      st.mesh = some mm → 1/2 < min (t / 800) 1 →
      ((assembleStep t st).mesh.map MeshObj.visible) = some true ∧
      ((assembleStep t st).mesh.map MeshObj.opacity) =
        some ((min (t / 800) 1 - 1/2) / (1 - 1/2)) ∧
      ((assembleStep t st).points.map fun x => x.mat.uOpacity) =
        some (1 - (min (t / 800) 1 - 1/2) / (1 - 1/2))) ∧
    (∀ (t : ℚ) (st : ViewerState), disperseFrames [t] st = none ↔ t < 800) ∧
    (∀ (s : ViewerState) (p : PointsObj) (m : MeshObj) (tex pos : ℕ) (ts1 ts2 : List ℚ),
      s.isAnimating = false → s.points = some p → s.mesh = some m → 1 < s.imagesLen →
      (∃ t ∈ ts1, 800 ≤ t) → (∃ t ∈ ts2, 800 ≤ t) →
      (nextImage false tex pos true true ts1 ts2 s).isAnimating = false ∧
      (nextImage false tex pos true true ts1 ts2 s).currentIndex =
        (s.currentIndex + 1) % s.imagesLen ∧
      ((nextImage false tex pos true true ts1 ts2 s).points.map PointsObj.visible) =
        some false ∧
      ((nextImage false tex pos true true ts1 ts2 s).points.map fun x => x.mat.uDispersion) =
        some 0 ∧
      ((nextImage false tex pos true true ts1 ts2 s).points.map fun x => x.mat.uTextureMix) =
        some 0 ∧
      ((nextImage false tex pos true true ts1 ts2 s).points.map fun x => x.mat.uTexture) =
        some tex ∧
      ((nextImage false tex pos true true ts1 ts2 s).mesh.map MeshObj.visible) = some true ∧
      ((nextImage false tex pos true true ts1 ts2 s).mesh.map MeshObj.opacity) = some 1 ∧
      ((nextImage false tex pos true true ts1 ts2 s).mesh.map MeshObj.map) = some tex) := by
  refine ⟨?_, ?_, ?_, ?_, ?_⟩
  · intro t st q hq
    simp [disperseStep, updMat, hq]
  · intro t st q hq
    rcases hmm : st.mesh with _ | mm
    · simp only [assembleStep, updMat, updMesh, hq, hmm, Option.isSome_none,
        Option.isSome_some]
      rw [if_neg (by simp)]
      simp
    · by_cases hcond : (1:ℚ)/2 < min (t / 800) 1
      · simp only [assembleStep, updMat, updMesh, hq, hmm, Option.isSome_some]
        split_ifs with hC
        · simp
        · exact absurd ⟨hcond, by simp, by simp⟩ hC
      · simp only [assembleStep, updMat, updMesh, hq, hmm, Option.isSome_some]
        split_ifs with hC
        · exact absurd hC.1 hcond
        · simp
  · intro t st q mm hq hmm hcond
    simp only [assembleStep, updMat, updMesh, hq, hmm, Option.isSome_some]
    split_ifs with hC
    · refine ⟨?_, ?_, ?_⟩ <;> simp
    · exact absurd ⟨hcond, by simp, by simp⟩ hC
  · intro t st
    by_cases h : t < 800
    · simp only [disperseFrames]
      rw [if_pos ((stage_progress_lt t).mpr h)]
      simp [disperseFrames, h]
    · simp only [disperseFrames]
      rw [if_neg (by rw [stage_progress_lt]; exact h)]
      simp [h]
  · intro s p m tex pos ts1 ts2 hia hp hm hil hts1 hts2
    obtain ⟨cv, capv, ov, ia, ci, il, pts, msh, rnd, scn, aid, rid, hc, bgc, foc, el⟩ := s
    simp only at hia hp hm hil
    subst hia hp hm
    have hguard : ¬ ((false || decide (il ≤ 1)) = true) := by simp; omega
    unfold nextImage
    rw [if_neg hguard]
    have hd := disperseFrames_complete ts1
      { containerVisible := cv, captionVisible := false, overflowHidden := ov,
        isAnimating := true, currentIndex := ci, imagesLen := il,
        points := (some { mat := { p.mat with uOpacity := 1, uTextureNext := tex }, visible := true, positionsFrom := p.positionsFrom }),
        mesh := (some { visible := false, opacity := m.opacity, map := m.map }),
        renderer := rnd, scene := scn, animationId := aid, renderId := rid,
        handlersCount := hc, bgCount := bgc, focus := foc, errorLog := el } hts1
    dsimp only at hd
    simp only [transitionTo, Bool.false_eq_true, Bool.not_true, Option.isNone_some,
      Bool.or_self, Bool.false_or, Bool.or_false, if_false, if_true, updMesh, updMat]
    rw [hd]
    dsimp only
    rw [assembleFrames_complete _ _ hts2]
    dsimp only
    simp [reassemblyStageResult, swapImageContent, dispersionStageResult, assembleFinalize,
      updMat, updMesh]

/-- C6 witness: concrete run from the open-session state with each stage
sampled at exactly 800 ms. -/
theorem navigation_two_stage_protocol_witness :
    (nextImage false 9 2 true true [800] [800] sampleOpenState).isAnimating = false ∧
    (nextImage false 9 2 true true [800] [800] sampleOpenState).currentIndex =
      (sampleOpenState.currentIndex + 1) % sampleOpenState.imagesLen ∧
    ((nextImage false 9 2 true true [800] [800] sampleOpenState).points.map
      PointsObj.visible) = some false ∧
    ((nextImage false 9 2 true true [800] [800] sampleOpenState).points.map
      fun x => x.mat.uDispersion) = some 0 ∧
    ((nextImage false 9 2 true true [800] [800] sampleOpenState).points.map
      fun x => x.mat.uTextureMix) = some 0 ∧
    ((nextImage false 9 2 true true [800] [800] sampleOpenState).points.map
      fun x => x.mat.uTexture) = some 9 ∧
    ((nextImage false 9 2 true true [800] [800] sampleOpenState).mesh.map
      MeshObj.visible) = some true ∧
    ((nextImage false 9 2 true true [800] [800] sampleOpenState).mesh.map
      MeshObj.opacity) = some 1 ∧
    ((nextImage false 9 2 true true [800] [800] sampleOpenState).mesh.map
      MeshObj.map) = some 9 :=
  navigation_two_stage_protocol.2.2.2.2 sampleOpenState
    { mat := initialMat 5, visible := false, positionsFrom := 0 }
    { visible := true, opacity := 1, map := 5 } 9 2 [800] [800]
    rfl rfl rfl (by norm_num [sampleOpenState, sampleState])
    ⟨800, by simp, le_refl 800⟩ ⟨800, by simp, le_refl 800⟩

theorem tween_progress_lt (t d : ℚ) (hd : 0 < d) : min (t / d) 1 < 1 ↔ t < d := by
  rw [min_lt_iff]
  constructor
  · rintro (h | h)
    · exact (div_lt_one hd).mp h
    · exact absurd h (lt_irrefl 1)
  · intro h
    exact Or.inl ((div_lt_one hd).mpr h)

set_option maxHeartbeats 2000000 in
theorem tweenLoop_one_complete (d sv cs : ℚ) (cb : ViewerState → ViewerState) (hd : 0 < d) :
    ∀ (frames : List ℚ) (st : ViewerState), (∃ t ∈ frames, d ≤ t) →
      ∃ st', tweenLoop 1 d sv cs cb frames st = cb st' ∧
        st'.isAnimating = false ∧ st'.containerVisible = st.containerVisible ∧
        st'.captionVisible = st.captionVisible ∧ st'.overflowHidden = st.overflowHidden ∧
        st'.focus = st.focus ∧ st'.bgCount = st.bgCount ∧
        st'.currentIndex = st.currentIndex ∧ st'.imagesLen = st.imagesLen ∧
        st'.points.isSome = st.points.isSome ∧ st'.mesh.isSome = st.mesh.isSome := by
  intro frames
  induction frames with
  | nil => intro st h; simp at h
  | cons t ts ih =>
    intro st h
    by_cases ht : d ≤ t
    · have hguard : ¬ (min (t / d) 1 < 1) := by
        rw [tween_progress_lt t d hd]
        linarith
      obtain ⟨cv, capv, ov, ia, ci, il, pts, msh, rnd, scn, aid, rid, hc, bgc, foc, el⟩ := st
      dsimp only [tweenLoop, updMat, updMesh]
      rw [if_neg hguard]
      cases pts <;> cases msh <;> by_cases hcs : cs < min (t / d) 1 <;>
        (try simp only [hcs, if_true, if_false]) <;>
        (refine ⟨_, rfl, ?_, ?_, ?_, ?_, ?_, ?_, ?_, ?_, ?_, ?_⟩ <;> rfl)
    · have htail : ∃ x ∈ ts, d ≤ x := by
        rcases h with ⟨x, hx, hx8⟩
        rcases List.mem_cons.mp hx with rfl | hmem
        · exact absurd hx8 ht
        · exact ⟨x, hmem, hx8⟩
      obtain ⟨cv, capv, ov, ia, ci, il, pts, msh, rnd, scn, aid, rid, hc, bgc, foc, el⟩ := st
      dsimp only [tweenLoop, updMat, updMesh]
      rw [if_pos ((tween_progress_lt t d hd).mpr (by linarith))]
      cases pts <;> cases msh <;> by_cases hcs : cs < min (t / d) 1 <;>
        (try simp only [hcs, if_true, if_false]) <;>
        exact ih _ htail

set_option maxHeartbeats 2000000 in
theorem tweenLoop_zero_complete (d sv cs : ℚ) (cb : ViewerState → ViewerState) (hd : 0 < d) :
    ∀ (frames : List ℚ) (st : ViewerState), (∃ t ∈ frames, d ≤ t) →
      ∃ st', tweenLoop 0 d sv cs cb frames st = cb st' ∧
        st'.isAnimating = false ∧ st'.currentIndex = st.currentIndex ∧
        st'.imagesLen = st.imagesLen ∧ st'.points.isSome = st.points.isSome := by
  intro frames
  induction frames with
  | nil => intro st h; simp at h
  | cons t ts ih =>
    intro st h
    by_cases ht : d ≤ t
    · have hguard : ¬ (min (t / d) 1 < 1) := by
        rw [tween_progress_lt t d hd]
        linarith
      obtain ⟨cv, capv, ov, ia, ci, il, pts, msh, rnd, scn, aid, rid, hc, bgc, foc, el⟩ := st
      dsimp only [tweenLoop, updMat, updMesh]
      rw [if_neg hguard]
      cases pts <;> cases msh <;>
        by_cases hcls : 3/5 < min (t / d) 1 ∧ cv = true <;>
        (try simp only [hcls, if_true, if_false, true_and, and_true, and_false, false_and,
          and_self]) <;>
        (refine ⟨_, rfl, ?_, ?_, ?_, ?_⟩ <;> rfl)
    · have htail : ∃ x ∈ ts, d ≤ x := by
        rcases h with ⟨x, hx, hx8⟩
        rcases List.mem_cons.mp hx with rfl | hmem
        · exact absurd hx8 ht
        · exact ⟨x, hmem, hx8⟩
      obtain ⟨cv, capv, ov, ia, ci, il, pts, msh, rnd, scn, aid, rid, hc, bgc, foc, el⟩ := st
      dsimp only [tweenLoop, updMat, updMesh]
      rw [if_pos ((tween_progress_lt t d hd).mpr (by linarith))]
      cases pts <;> cases msh <;>
        by_cases hcls : 3/5 < min (t / d) 1 ∧ cv = true <;>
        (try simp only [hcls, if_true, if_false, true_and, and_true, and_false, false_and,
          and_self]) <;>
        exact ih _ htail

theorem cleanupState_fields (s : ViewerState) :
    (cleanupSceneState s).containerVisible = s.containerVisible ∧
    (cleanupSceneState s).captionVisible = s.captionVisible ∧
    (cleanupSceneState s).overflowHidden = s.overflowHidden ∧
    (cleanupSceneState s).focus = s.focus ∧
    (cleanupSceneState s).currentIndex = s.currentIndex ∧
    (cleanupSceneState s).imagesLen = s.imagesLen := by
  obtain ⟨cv, capv, ov, ia, ci, il, pts, msh, rnd, scn, aid, rid, hc, bgc, foc, el⟩ := s
  unfold cleanupSceneState cleanupScene
  cases pts <;> cases scn <;> exact ⟨rfl, rfl, rfl, rfl, rfl, rfl⟩

theorem if_bool_false {α : Sort _} (a b : α) : (if false = true then a else b) = b := rfl

theorem tweenProgress_rm (target d cs : ℚ) (cb : ViewerState → ViewerState)
    (frames : List ℚ) (st : ViewerState) (hq : st.points.isSome = true) :
    tweenProgress true target d cs cb frames st = cb (tweenZero target st) := by
  obtain ⟨cv, capv, ov, ia, ci, il, pts, msh, rnd, scn, aid, rid, hc, bgc, foc, el⟩ := st
  rcases pts with _ | q
  · simp at hq
  · rfl

theorem tweenProgress_animated (target d cs : ℚ) (cb : ViewerState → ViewerState)
    (frames : List ℚ) (st : ViewerState) (q : PointsObj) (hd : 0 < d)
    (hq : st.points = some q) :
    tweenProgress false target d cs cb frames st =
      tweenLoop target d q.mat.uProgress cs cb frames { st with isAnimating := true } := by
  obtain ⟨cv, capv, ov, ia, ci, il, pts, msh, rnd, scn, aid, rid, hc, bgc, foc, el⟩ := st
  simp only at hq
  subst hq
  dsimp only [tweenProgress]
  simp only [Option.isNone_some, if_bool_false]
  rw [if_neg (not_le.mpr hd)]

theorem tweenZero_one_fields (st : ViewerState) :
    (tweenZero 1 st).containerVisible = st.containerVisible ∧
    (tweenZero 1 st).captionVisible = st.captionVisible ∧
    (tweenZero 1 st).overflowHidden = st.overflowHidden ∧
    (tweenZero 1 st).focus = st.focus ∧
    (tweenZero 1 st).currentIndex = st.currentIndex ∧
    (tweenZero 1 st).imagesLen = st.imagesLen ∧
    (tweenZero 1 st).isAnimating = st.isAnimating ∧
    (tweenZero 1 st).points.isSome = st.points.isSome ∧
    (tweenZero 1 st).renderId = st.renderId := by
  obtain ⟨cv, capv, ov, ia, ci, il, pts, msh, rnd, scn, aid, rid, hc, bgc, foc, el⟩ := st
  cases pts <;> cases msh <;> exact ⟨rfl, rfl, rfl, rfl, rfl, rfl, rfl, rfl, rfl⟩

theorem tweenZero_zero_fields (st : ViewerState) :
    (tweenZero 0 st).currentIndex = st.currentIndex ∧
    (tweenZero 0 st).imagesLen = st.imagesLen ∧
    (tweenZero 0 st).isAnimating = st.isAnimating ∧
    (tweenZero 0 st).points.isSome = st.points.isSome := by
  obtain ⟨cv, capv, ov, ia, ci, il, pts, msh, rnd, scn, aid, rid, hc, bgc, foc, el⟩ := st
  cases pts <;> cases msh <;> exact ⟨rfl, rfl, rfl, rfl⟩

theorem closeOnComplete_dom (st : ViewerState) (hidx : st.currentIndex < st.imagesLen) :
    domProjection (closeOnComplete st) =
      (false, false, false, some (FocusTarget.image st.currentIndex), 0) := by
  obtain ⟨cv, capv, ov, ia, ci, il, pts, msh, rnd, scn, aid, rid, hc, bgc, foc, el⟩ := st
  simp only at hidx
  unfold closeOnComplete cleanupScene
  cases pts <;> cases scn <;> dsimp only <;> split_ifs with h <;>
    first
    | rfl
    | (exact absurd hidx h)

theorem open_animated_fields (idx tex pos : ℕ) (openD cs : ℚ) (oF : List ℚ)
    (s : ViewerState) (hd : 0 < openD) (hia : s.isAnimating = false) (hp : s.points = none)
    (hoF : ∃ t ∈ oF, openD ≤ t) :
    ∃ G, openAttempt false idx tex pos openD cs true oF s = G ∧
      G.isAnimating = false ∧ G.containerVisible = true ∧ G.captionVisible = true ∧
      G.overflowHidden = true ∧ G.focus = some FocusTarget.closeButton ∧
      G.currentIndex = idx ∧ G.imagesLen = s.imagesLen ∧ G.points.isSome = true ∧
      G.mesh.isSome = true := by
  obtain ⟨cv, capv, ov, ia, ci, il, pts, msh, rnd, scn, aid, rid, hc, bgc, foc, el⟩ := s
  simp only at hia hp
  subst hia
  subst hp
  have e1 : openAttempt false idx tex pos openD cs true oF
      ⟨cv, capv, ov, false, ci, il, none, msh, rnd, scn, aid, rid, hc, bgc, foc, el⟩ =
      (if (tweenProgress false 1 openD cs (fun st => st) oF
          ⟨true, true, true, false, idx, il, some ⟨initialMat tex, true, pos⟩,
            some ⟨false, 0, tex⟩, true, true, aid, rid, hc, bgc + 1,
            some FocusTarget.closeButton, el⟩).renderId.isNone = true then
        { tweenProgress false 1 openD cs (fun st => st) oF
            ⟨true, true, true, false, idx, il, some ⟨initialMat tex, true, pos⟩,
              some ⟨false, 0, tex⟩, true, true, aid, rid, hc, bgc + 1,
              some FocusTarget.closeButton, el⟩ with renderId := some 1 }
      else tweenProgress false 1 openD cs (fun st => st) oF
          ⟨true, true, true, false, idx, il, some ⟨initialMat tex, true, pos⟩,
            some ⟨false, 0, tex⟩, true, true, aid, rid, hc, bgc + 1,
            some FocusTarget.closeButton, el⟩) := rfl
  rw [tweenProgress_animated 1 openD cs (fun st => st) oF _
    (⟨initialMat tex, true, pos⟩ : PointsObj) hd rfl] at e1
  obtain ⟨st', heq, hA, hcv', hcapv', hov', hfoc', hbg', hci', hil', hpts', hmesh'⟩ :=
    tweenLoop_one_complete openD ((⟨initialMat tex, true, pos⟩ : PointsObj)).mat.uProgress cs
      (fun st => st) hd oF
      { (⟨true, true, true, false, idx, il, some ⟨initialMat tex, true, pos⟩,
          some ⟨false, 0, tex⟩, true, true, aid, rid, hc, bgc + 1,
          some FocusTarget.closeButton, el⟩ : ViewerState) with isAnimating := true } hoF
  rw [heq] at e1
  refine ⟨_, e1, ?_, ?_, ?_, ?_, ?_, ?_, ?_, ?_, ?_⟩ <;> split_ifs <;>
    first
    | exact hA
    | exact hcv'
    | exact hcapv'
    | exact hov'
    | exact hfoc'
    | exact hci'
    | exact hil'
    | exact hpts'
    | exact hmesh'

theorem open_rm_fields (idx tex pos : ℕ) (openD cs : ℚ) (oF : List ℚ)
    (s : ViewerState) (hia : s.isAnimating = false) (hp : s.points = none) :
    ∃ G, openAttempt true idx tex pos openD cs true oF s = G ∧
      G.isAnimating = false ∧ G.containerVisible = true ∧ G.captionVisible = true ∧
      G.overflowHidden = true ∧ G.focus = some FocusTarget.closeButton ∧
      G.currentIndex = idx ∧ G.imagesLen = s.imagesLen ∧ G.points.isSome = true ∧
      G.mesh.isSome = true := by
  obtain ⟨cv, capv, ov, ia, ci, il, pts, msh, rnd, scn, aid, rid, hc, bgc, foc, el⟩ := s
  simp only at hia hp
  subst hia
  subst hp
  have e1 : openAttempt true idx tex pos openD cs true oF
      ⟨cv, capv, ov, false, ci, il, none, msh, rnd, scn, aid, rid, hc, bgc, foc, el⟩ =
      (if ((⟨true, true, true, false, idx, il, some ⟨⟨1, 0, 0, 0, 0, tex, tex⟩, false, pos⟩,
          some ⟨true, 1, tex⟩, true, true, aid, rid, hc, bgc + 1,
          some FocusTarget.closeButton, el⟩ : ViewerState)).renderId.isNone = true then
        { (⟨true, true, true, false, idx, il, some ⟨⟨1, 0, 0, 0, 0, tex, tex⟩, false, pos⟩,
            some ⟨true, 1, tex⟩, true, true, aid, rid, hc, bgc + 1,
            some FocusTarget.closeButton, el⟩ : ViewerState) with renderId := some 1 }
      else (⟨true, true, true, false, idx, il, some ⟨⟨1, 0, 0, 0, 0, tex, tex⟩, false, pos⟩,
          some ⟨true, 1, tex⟩, true, true, aid, rid, hc, bgc + 1,
          some FocusTarget.closeButton, el⟩ : ViewerState)) := rfl
  refine ⟨_, e1, ?_, ?_, ?_, ?_, ?_, ?_, ?_, ?_, ?_⟩ <;> split_ifs <;> rfl

theorem close_animated_dom (closeD cs : ℚ) (cF : List ℚ) (st : ViewerState)
    (q : PointsObj) (m : MeshObj) (hd : 0 < closeD) (hia : st.isAnimating = false)
    (hq : st.points = some q) (hm : st.mesh = some m)
    (hidx : st.currentIndex < st.imagesLen) (hcF : ∃ t ∈ cF, closeD ≤ t) :
    domProjection (close false closeD cs cF st) =
      (false, false, false, some (FocusTarget.image st.currentIndex), 0) := by
  obtain ⟨cv, capv, ov, ia, ci, il, pts, msh, rnd, scn, aid, rid, hc, bgc, foc, el⟩ := st
  simp only at hia hq hm hidx
  subst hia
  subst hq
  subst hm
  have e1 : close false closeD cs cF
      ⟨cv, capv, ov, false, ci, il, some q, some m, rnd, scn, aid, rid, hc, bgc, foc, el⟩ =
      tweenProgress false 0 closeD cs closeOnComplete cF
        ⟨cv, capv, ov, false, ci, il,
          some ⟨⟨q.mat.uProgress, 1, 1, q.mat.uDispersion, q.mat.uTextureMix,
            q.mat.uTexture, q.mat.uTextureNext⟩, true, q.positionsFrom⟩,
          some ⟨false, 0, m.map⟩, rnd, scn, aid, rid, hc, bgc, foc, el⟩ := rfl
  rw [e1, tweenProgress_animated 0 closeD cs closeOnComplete cF _
    (⟨⟨q.mat.uProgress, 1, 1, q.mat.uDispersion, q.mat.uTextureMix,
      q.mat.uTexture, q.mat.uTextureNext⟩, true, q.positionsFrom⟩ : PointsObj) hd rfl]
  obtain ⟨st'', heq, hA, hci, hil2, hps⟩ :=
    tweenLoop_zero_complete closeD
      ((⟨⟨q.mat.uProgress, 1, 1, q.mat.uDispersion, q.mat.uTextureMix,
        q.mat.uTexture, q.mat.uTextureNext⟩, true, q.positionsFrom⟩ : PointsObj)).mat.uProgress
      cs closeOnComplete hd cF
      { (⟨cv, capv, ov, false, ci, il,
          some ⟨⟨q.mat.uProgress, 1, 1, q.mat.uDispersion, q.mat.uTextureMix,
            q.mat.uTexture, q.mat.uTextureNext⟩, true, q.positionsFrom⟩,
          some ⟨false, 0, m.map⟩, rnd, scn, aid, rid, hc, bgc, foc, el⟩ : ViewerState) with
        isAnimating := true } hcF
  rw [heq, closeOnComplete_dom st'' (by rw [hci, hil2]; exact hidx), hci]

theorem close_rm_dom (closeD cs : ℚ) (cF : List ℚ) (st : ViewerState)
    (q : PointsObj) (m : MeshObj) (hia : st.isAnimating = false)
    (hq : st.points = some q) (hm : st.mesh = some m)
    (hidx : st.currentIndex < st.imagesLen) :
    domProjection (close true closeD cs cF st) =
      (false, false, false, some (FocusTarget.image st.currentIndex), 0) := by
  obtain ⟨cv, capv, ov, ia, ci, il, pts, msh, rnd, scn, aid, rid, hc, bgc, foc, el⟩ := st
  simp only at hia hq hm hidx
  subst hia
  subst hq
  subst hm
  have e1 : close true closeD cs cF
      ⟨cv, capv, ov, false, ci, il, some q, some m, rnd, scn, aid, rid, hc, bgc, foc, el⟩ =
      closeOnComplete
        ⟨false, false, ov, false, ci, il,
          some ⟨⟨0, 1, 1, q.mat.uDispersion, q.mat.uTextureMix,
            q.mat.uTexture, q.mat.uTextureNext⟩, true, q.positionsFrom⟩,
          some ⟨false, 0, m.map⟩, rnd, scn, aid, rid, hc, bgc, foc, el⟩ := rfl
  rw [e1]
  exact closeOnComplete_dom _ hidx

/-- C7: when reduced motion is requested, `tweenProgress` skips the frame loop
and applies the end state synchronously: the uniforms jump to the target value,
no animation frame is scheduled (animationId is untouched), at target 1 the
mesh is shown at full opacity while the points layer is hidden with uOpacity 0,
at target 0 the container and caption are hidden immediately, and a full
open-then-close session leaves the DOM (visibility, overflow, focus, background
count) in the same state as the animated path does. -/
theorem zero_duration_tween_effects :
    (∀ (st : ViewerState) (target d cs : ℚ) (cb : ViewerState → ViewerState)
      (frames : List ℚ), st.points.isSome = true →
      tweenProgress true target d cs cb frames st = cb (tweenZero target st)) ∧
    (∀ (st : ViewerState) (target : ℚ), (tweenZero target st).animationId = st.animationId) ∧
    (∀ (st : ViewerState) (p : PointsObj), st.points = some p →
      (tweenZero 1 st).points =
        some { p with visible := false, mat := { p.mat with uProgress := 1, uOpacity := 0 } } ∧
      ∀ m : MeshObj, st.mesh = some m →
        (tweenZero 1 st).mesh = some { m with visible := true, opacity := 1 }) ∧
    (∀ (st : ViewerState) (p : PointsObj), st.points = some p →
      (tweenZero 0 st).containerVisible = false ∧ (tweenZero 0 st).captionVisible = false ∧
      (tweenZero 0 st).points = some { p with mat := { p.mat with uProgress := 0 } }) ∧
    (∀ (s : ViewerState) (idx tex pos : ℕ) (openD closeD cs : ℚ) (oF cF : List ℚ),
      s.isAnimating = false → s.points = none → s.currentIndex < s.imagesLen →
      idx < s.imagesLen → 0 < openD → 0 < closeD →
      (∃ t ∈ oF, openD ≤ t) → (∃ t ∈ cF, closeD ≤ t) →
      domProjection (openThenClose true idx tex pos openD closeD cs oF cF s) =
        domProjection (openThenClose false idx tex pos openD closeD cs oF cF s)) := by
  refine ⟨?_, ?_, ?_, ?_, ?_⟩
  · intro st target d cs cb frames hq
    exact tweenProgress_rm target d cs cb frames st hq
  · intro st target
    obtain ⟨cv, capv, ov, ia, ci, il, pts, msh, rnd, scn, aid, rid, hc, bgc, foc, el⟩ := st
    unfold tweenZero updMat updMesh
    cases pts <;> cases msh <;> (try split_ifs) <;> rfl
  · intro st p hp
    obtain ⟨cv, capv, ov, ia, ci, il, pts, msh, rnd, scn, aid, rid, hc, bgc, foc, el⟩ := st
    simp only at hp
    subst hp
    cases msh with
    | none =>
      refine ⟨rfl, ?_⟩
      intro m hm
      exact Option.noConfusion hm
    | some m0 =>
      refine ⟨rfl, ?_⟩
      intro m hm
      simp only [Option.some.injEq] at hm
      subst hm
      rfl
  · intro st p hp
    obtain ⟨cv, capv, ov, ia, ci, il, pts, msh, rnd, scn, aid, rid, hc, bgc, foc, el⟩ := st
    simp only at hp
    subst hp
    cases msh <;> exact ⟨rfl, rfl, rfl⟩
  · intro s idx tex pos openD closeD cs oF cF hia hp hciil hidx hod hcd hoF hcF
    obtain ⟨G1, hG1, hA1, hcv1, hcap1, hov1, hfoc1, hci1, hil1, hpts1, hmesh1⟩ :=
      open_rm_fields idx tex pos openD cs oF s hia hp
    obtain ⟨q1, hq1⟩ := Option.isSome_iff_exists.mp hpts1
    obtain ⟨m1, hm1⟩ := Option.isSome_iff_exists.mp hmesh1
    obtain ⟨G2, hG2, hA2, hcv2, hcap2, hov2, hfoc2, hci2, hil2, hpts2, hmesh2⟩ :=
      open_animated_fields idx tex pos openD cs oF s hod hia hp hoF
    obtain ⟨q2, hq2⟩ := Option.isSome_iff_exists.mp hpts2
    obtain ⟨m2, hm2⟩ := Option.isSome_iff_exists.mp hmesh2
    unfold openThenClose
    rw [hG1, hG2]
    rw [close_rm_dom closeD cs cF G1 q1 m1 hA1 hq1 hm1 (by rw [hci1, hil1]; exact hidx)]
    rw [close_animated_dom closeD cs cF G2 q2 m2 hcd hA2 hq2 hm2
      (by rw [hci2, hil2]; exact hidx) hcF]
    rw [hci1, hci2]

/-- Concrete instantiation of the zero-duration tween characterisation: the
reduced-motion short-circuit, the progress-0 DOM hiding, and the DOM-projection
agreement of a full open-then-close session with and without animation. -/
theorem zero_duration_tween_effects_witness :
    (tweenProgress true 1 2000 (1/5) (fun st => st) [100] sampleOpenState =
      tweenZero 1 sampleOpenState) ∧
    ((tweenZero 0 sampleOpenState).containerVisible = false) ∧
    (domProjection (openThenClose true 1 9 0 2000 1200 (1/5) [2000] [1200] sampleState) =
      domProjection (openThenClose false 1 9 0 2000 1200 (1/5) [2000] [1200] sampleState)) := by
  refine ⟨zero_duration_tween_effects.1 sampleOpenState 1 2000 (1/5) (fun st => st) [100] rfl,
    (zero_duration_tween_effects.2.2.2.1 sampleOpenState
      { mat := initialMat 5, visible := false, positionsFrom := 0 } rfl).1,
    zero_duration_tween_effects.2.2.2.2 sampleState 1 9 0 2000 1200 (1/5) [2000] [1200]
      rfl rfl (by decide) (by decide) (by norm_num) (by norm_num)
      ⟨2000, by simp, le_refl 2000⟩ ⟨1200, by simp, le_refl 1200⟩⟩
